import Mathlib

/-!
Shallow embedding of `src/santa_map.py` (Holiday Santa Traditions Map).

The script is sequential Python over external libraries (cartopy, shapely,
matplotlib, numpy, CPython `random`).  Coordinates and pixel quantities are
embedded as `ℚ`.  External collaborators are embedded as explicit parameters
or as concrete deterministic models:

* the shapely land-union containment test becomes a parameter
  `contains : ℚ × ℚ → Bool`;
* the cartopy geodesic direct solver becomes a parameter
  `forward : ℚ × ℚ → ℚ → ℚ → ℚ × ℚ` (center, azimuth, distance ↦ endpoint);
* the seeded generator `random.Random(seed)` becomes a concrete deterministic
  stream of unit-interval rationals, a pure function of seed and draw index;
* matplotlib rendering is recorded as the list of elements handed to it.
-/

set_option autoImplicit false

/-- Model of CPython `Random.uniform a b`: CPython computes
`a + (b - a) * self.random()` where `self.random()` is the next unit-interval
draw `u` of the generator. -/
def pyUniform (a b u : ℚ) : ℚ := a + (b - a) * u

/-- One step of the concrete model of CPython's seeded generator (a linear
congruential step standing in for the Mersenne Twister; what matters for the
program is only that the stream is a pure deterministic function of the seed
and that each draw lies in the unit interval). -/
def lcgStep (s : ℕ) : ℕ := (1103515245 * s + 12345) % 2 ^ 31

/-- Internal state of the modelled generator after `k + 1` steps from `seed`. -/
def lcgState (seed : ℕ) : ℕ → ℕ
  | 0 => lcgStep seed
  | k + 1 => lcgStep (lcgState seed k)

/-- Model of `random.Random(seed).random()`: the `k`-th unit-interval draw of
the explicitly seeded generator. -/
def unitDraw (seed : ℕ) (k : ℕ) : ℚ := (lcgState seed k : ℚ) / 2 ^ 31

/-- The candidate point drawn at loop iteration `t` of
`_sample_points_in_land` (src/santa_map.py lines 115-116):
`lon = rng.uniform(-180, 180)` then `lat = rng.uniform(-60, 85)`, i.e. the
`2t`-th and `2t+1`-th unit draws of the seeded generator stream `u`. -/
def drawAt (u : ℕ → ℚ) (t : ℕ) : ℚ × ℚ :=
  (pyUniform (-180) 180 (u (2 * t)), pyUniform (-60) 85 (u (2 * t + 1)))

/-- Result of `_sample_points_in_land`: the accepted points in acceptance
order (the Python list `pts`, returned as `np.array(pts)`), the number of
loop iterations performed (`tries`), and whether the under-shoot warning of
line 121 was emitted. -/
structure SampleResult where
  pts : List (ℚ × ℚ)
  tries : ℕ
  warned : Bool
deriving Repr, DecidableEq

/-- The `while len(pts) < n and tries < max_tries` loop of
`_sample_points_in_land` (src/santa_map.py lines 113-118).  `b` is the
remaining budget `max_tries - tries`, `t` is `tries`, `pts` is the accepted
list in reverse acceptance order.  Returns the accepted points in acceptance
order together with the final `tries`. -/
def sampleLoop (contains : ℚ × ℚ → Bool) (u : ℕ → ℚ) (n : ℕ) :
    ℕ → ℕ → List (ℚ × ℚ) → List (ℚ × ℚ) × ℕ
  | 0, t, pts => (pts.reverse, t)
  | b + 1, t, pts =>
    if n ≤ pts.length then (pts.reverse, t)
    else if contains (drawAt u t) then
      sampleLoop contains u n b (t + 1) (drawAt u t :: pts)
    else
      sampleLoop contains u n b (t + 1) pts

/-- `_sample_points_in_land(land_union, n, seed)` (src/santa_map.py lines
105-122): rejection-sample lon/lat points that fall on land.  The shapely
test `land_union.contains(Point(lon, lat))` is the parameter `contains`;
`rng = random.Random(seed)` is the modelled seeded stream `unitDraw seed`;
`max_tries = n * 60`; when fewer than `n` points were accepted the function
emits a non-fatal `warnings.warn` and still returns the partial list. -/
def _sample_points_in_land (contains : ℚ × ℚ → Bool) (n : ℕ) (seed : ℕ) :
    SampleResult :=
  let r := sampleLoop contains (unitDraw seed) n (n * 60) 0 []
  { pts := r.1, tries := r.2, warned := decide (r.1.length < n) }

/-- Boolean form of the fixed sampling rectangle of
`_sample_points_in_land` (line 109): `minx, miny, maxx, maxy = -180, -60,
180, 85`. -/
def inSampleBox (p : ℚ × ℚ) : Bool :=
  decide (-180 ≤ p.1) && decide (p.1 ≤ 180) && decide (-60 ≤ p.2) && decide (p.2 ≤ 85)

/-- The azimuth sweep of cartopy `Geodesic.circle`: `np.linspace(360, 0,
n_samples, endpoint=False)`, i.e. the `k`-th azimuth is `360 - k * 360 / n`. -/
def circleAzimuth (n_samples k : ℕ) : ℚ := 360 - 360 * (k : ℚ) / (n_samples : ℚ)

/-- Model of cartopy `Geodesic.circle(lon, lat, radius, n_samples)`: one call
of the geodesic direct problem per azimuth, keeping the endpoint lon/lat.
`forward center azimuth distance` models geographiclib's direct solver, which
is total: it returns an endpoint for every real distance, negative distances
included (they walk the geodesic backwards), and for every center, poles
included.  No argument is validated anywhere on this path. -/
def geodesicCircleCoords (forward : ℚ × ℚ → ℚ → ℚ → ℚ × ℚ)
    (lon lat radius : ℚ) (n_samples : ℕ) : List (ℚ × ℚ) :=
  (List.range n_samples).map fun k =>
    forward (lon, lat) (circleAzimuth n_samples k) radius

/-- `_geodesic_circle(lon, lat, radius_km, n_samples)` (src/santa_map.py
lines 50-54): delegates to `Geodesic().circle` with `radius = radius_km *
1000`.  The body contains no validation and no raise on this path, so the
`Except` error branch (a Python exception) is never produced. -/
def _geodesic_circle (forward : ℚ × ℚ → ℚ → ℚ → ℚ × ℚ)
    (lon lat radius_km : ℚ) (n_samples : ℕ) : Except String (List (ℚ × ℚ)) :=
  Except.ok (geodesicCircleCoords forward lon lat (radius_km * 1000) n_samples)

/-- Observer for `_geodesic_circle`: `some` of the point count when a circle
is produced, `none` when the call is rejected with an exception. -/
def circlePointCount : Except String (List (ℚ × ℚ)) → Option ℕ
  | Except.ok l => some l.length
  | Except.error _ => none

/-- A Python exception value as observed by `except Exception as e`:
`type(e).__name__` and `str(e)`. -/
structure PyError where
  typeName : String
  message : String

/-- A `warnings.warn` record; `errType`/`errMsg` are the pieces interpolated
by the f-string of src/santa_map.py lines 405-408. -/
structure WarningMsg where
  text : String
  errType : String
  errMsg : String

/-- The warning emitted when `anim.save` raises (src/santa_map.py lines
404-408). -/
def gifFailureWarning (e : PyError) : WarningMsg :=
  { text := "Failed to save GIF. Make sure Pillow is installed (pip install pillow). Error: "
  , errType := e.typeName
  , errMsg := e.message }

/-- The full message string passed to `warnings.warn`, with the f-string
interpolation made explicit. -/
def renderWarning (w : WarningMsg) : String :=
  w.text ++ w.errType ++ ": " ++ w.errMsg

/-- Outcome of the tail of `main` (src/santa_map.py lines 366-410) as far as
outputs go: the PNG was saved, whether the GIF was saved, the warnings
emitted, and the process exit code. -/
structure GifOutcome where
  staticSaved : Bool
  gifSaved : Bool
  warnings : List WarningMsg
  exitCode : ℕ
  aborted : Bool

/-- The `try: anim.save(...) except Exception as e: warnings.warn(...)` block
of `main` (src/santa_map.py lines 401-408), given the outcome of the
`anim.save` call.  `plt.savefig(OUT_PNG)` already ran unconditionally at line
366, so the static output is saved on both branches; `plt.show()` at line 410
still runs and the program ends normally with exit code 0 on both branches. -/
def gifSaveStep (res : Except PyError Unit) : GifOutcome :=
  match res with
  | Except.ok _ =>
      { staticSaved := true, gifSaved := true, warnings := [], exitCode := 0, aborted := false }
  | Except.error e =>
      { staticSaved := true, gifSaved := false, warnings := [gifFailureWarning e]
      , exitCode := 0, aborted := false }

/-- Module-level constant (src/santa_map.py line 34). -/
def BUFFER_KM : ℚ := 350

/-- Module-level constant (src/santa_map.py line 37). -/
def LAND_SNOWFLAKES : ℕ := 1400

/-- Module-level constant (src/santa_map.py line 41). -/
def SNOW_PARTICLES : ℕ := 450

/-- Module-level constant (src/santa_map.py line 42). -/
def SNOW_FRAMES : ℕ := 120

/-- Module-level constant (src/santa_map.py line 43). -/
def SNOW_INTERVAL_MS : ℕ := 55

/-- One snow particle of the animated snowfall: position in axes
coordinates. -/
structure Particle where
  x : ℚ
  y : ℚ
deriving Repr, DecidableEq

/-- `np.clip x lo hi = min (max x lo) hi`. -/
def npClip (x lo hi : ℚ) : ℚ := min (max x lo) hi

/-- Per-particle effect of one call of `_update` (src/santa_map.py lines
389-396): the particle falls by its speed; a particle below -0.05 is reset to
y = 1.05 with a freshly drawn x in [0, 1]; then gaussian jitter `noise` is
added to x and the result is clipped to [-0.02, 1.02]. -/
def updateParticle (speed noise freshX : ℚ) (p : Particle) : Particle :=
  let y1 := p.y - speed
  if y1 < -0.05 then
    { x := npClip (freshX + noise) (-0.02) 1.02, y := 1.05 }
  else
    { x := npClip (p.x + noise) (-0.02) 1.02, y := y1 }

/-- The frame update `_update` (src/santa_map.py lines 389-397) acting on the
whole particle array; `speed i`, `noise i`, `freshX i` are particle `i`'s
fall speed, gaussian x-jitter for this frame and fresh uniform x draw for
this frame. -/
def _update (speed noise freshX : ℕ → ℚ) (ps : List Particle) : List Particle :=
  ps.enum.map fun ip => updateParticle (speed ip.1) (noise ip.1) (freshX ip.1) ip.2

/-- Boolean particle-state invariant checked after each `_update`. -/
def particleInRange (p : Particle) : Bool :=
  decide (-0.02 ≤ p.x) && decide (p.x ≤ 1.02) && decide (-0.05 ≤ p.y)

/-- Particle state after `k` calls of `_update`; `noise k`/`freshX k` are the
generator draws consumed by frame `k`. -/
def snowStateAfter (speed : ℕ → ℚ) (noise freshX : ℕ → ℕ → ℚ)
    (init : List Particle) : ℕ → List Particle
  | 0 => init
  | k + 1 => _update speed (noise k) (freshX k) (snowStateAfter speed noise freshX init k)

/-- Model of `FuncAnimation(fig, _update, frames=SNOW_FRAMES, ...)` followed
by `anim.save` (src/santa_map.py line 399): the animated output is the finite
sequence of figure states after each of the `SNOW_FRAMES` calls of
`_update`. -/
def animationFrames (speed : ℕ → ℚ) (noise freshX : ℕ → ℕ → ℚ)
    (init : List Particle) : List (List Particle) :=
  (List.range SNOW_FRAMES).map fun i => snowStateAfter speed noise freshX init (i + 1)

/-- One row of the location table (src/santa_map.py line 197 column names). -/
structure LocationRow where
  name : String
  tradition : String
  place : String
  lat : ℚ
  lon : ℚ
  note : String
  official_hat : Bool

/-- The hard-coded location table of this variant of the program
(src/santa_map.py lines 181-195): 7 rows. -/
def rows : List LocationRow :=
  [ { name := "Santa Claus (Rovaniemi)", tradition := "Official Santa"
    , place := "Rovaniemi, Finland", lat := 66.5039, lon := 25.7294
    , note := "Santa Claus Village vibes", official_hat := true }
  , { name := "Santa Claus (North Pole)", tradition := "Official Santa"
    , place := "North Pole, Alaska, USA", lat := 64.7511, lon := -147.3494
    , note := "Santa Claus House", official_hat := true }
  , { name := "P\xc3re No\xebl", tradition := "Western Europe"
    , place := "Strasbourg, France", lat := 48.5734, lon := 7.7521
    , note := "Markets + magic", official_hat := false }
  , { name := "Ded Moroz (Father Frost)", tradition := "Slavic"
    , place := "Veliky Ustyug, Russia", lat := 60.7619, lon := 46.3056
    , note := "Father Frost", official_hat := false }
  , { name := "Papai Noel", tradition := "Americas"
    , place := "Rio de Janeiro, Brazil", lat := -22.9068, lon := -43.1729
    , note := "Tropical Santa = short sleeves", official_hat := false }
  , { name := "Hoteiosho", tradition := "East Asia"
    , place := "Tokyo, Japan", lat := 35.6762, lon := 139.6503
    , note := "One eye open until you\x27re good", official_hat := false }
  , { name := "Surfing Santa", tradition := "Southern Hemisphere (Summer)"
    , place := "Sydney, Australia", lat := -33.8688, lon := 151.2093
    , note := "Beach mode Santa", official_hat := true } ]

/-- Modelled from the spec: the repository bundles a second program variant
(not present under src/) whose hard-coded location table has 15 entries; the
spec fixes only the entry count, so the table is modelled as 15 generic
rows. -/
def rows15 : List LocationRow :=
  (List.range 15).map fun i =>
    { name := "variant location " ++ toString i, tradition := "variant"
    , place := "", lat := 0, lon := 0, note := "", official_hat := false }

/-- One element handed to the matplotlib axes while building the static
figure. -/
inductive RenderElement where
  | mapFeature : String → RenderElement
  | scatterPts : ℕ → RenderElement
  | circleFill : ℚ × ℚ → RenderElement
  | labelBox : String → RenderElement
  | titleText : String → RenderElement
deriving Repr, DecidableEq

/-- The tradition groups `sorted(df["tradition"].unique().tolist())`
(src/santa_map.py line 199), modelled as the deduplicated tradition column
(the sort order is immaterial to the properties below). -/
def traditionGroups (tbl : List LocationRow) : List String :=
  (tbl.map fun r => r.tradition).dedup

/-- The static figure as assembled by `main` (src/santa_map.py lines
221-342) in drawing order: ocean/land/coastline/borders features, the two
land-snowflake scatters (the second over `land_snow_pts[::2]`), one geodesic
circle fill per table row, three scatters (glow, bauble, shine) per tradition
group, one label per row, and the title; the figure is then saved to
`OUT_PNG` unconditionally at line 366. -/
def staticFigure (tbl : List LocationRow) (landPts : List (ℚ × ℚ)) :
    List RenderElement :=
  [ RenderElement.mapFeature "ocean", RenderElement.mapFeature "land"
  , RenderElement.mapFeature "coastline", RenderElement.mapFeature "borders" ] ++
  [ RenderElement.scatterPts landPts.length
  , RenderElement.scatterPts ((landPts.length + 1) / 2) ] ++
  (tbl.map fun r => RenderElement.circleFill (r.lon, r.lat)) ++
  ((traditionGroups tbl).flatMap fun t =>
    let c := (tbl.filter fun r => r.tradition = t).length
    [RenderElement.scatterPts c, RenderElement.scatterPts c, RenderElement.scatterPts c]) ++
  (tbl.map fun r => RenderElement.labelBox (r.name ++ "\n" ++ r.place)) ++
  [ RenderElement.titleText "Holiday Santa Traditions Map (Fairy-tale edition)" ]

/-- The static pipeline of `main` for this variant: sample
`LAND_SNOWFLAKES` land points with seed 11 (src/santa_map.py line 204) and
build the figure over the 7-row table. -/
def mainStatic (contains : ℚ × ℚ → Bool) : List RenderElement :=
  staticFigure rows (_sample_points_in_land contains LAND_SNOWFLAKES 11).pts

/-- Modelled from the spec: the second variant's pipeline builds the same
kind of static figure over its 15-entry table. -/
def mainStatic15 (contains : ℚ × ℚ → Bool) : List RenderElement :=
  staticFigure rows15 (_sample_points_in_land contains LAND_SNOWFLAKES 11).pts

/-! ## Lemmas about the sampling loop -/

theorem sampleLoop_length_le (contains : ℚ × ℚ → Bool) (u : ℕ → ℚ) (n : ℕ) :
    ∀ (b t : ℕ) (pts : List (ℚ × ℚ)), pts.length ≤ n →
      (sampleLoop contains u n b t pts).1.length ≤ n := by
  intro b
  induction b with
  | zero => intro t pts h; simpa [sampleLoop] using h
  | succ b ih =>
    intro t pts h
    simp only [sampleLoop]
    by_cases hn : n ≤ pts.length
    · rw [if_pos hn]; simpa using h
    · rw [if_neg hn]
      by_cases hc : contains (drawAt u t) = true
      · rw [if_pos hc]
        refine ih (t + 1) (drawAt u t :: pts) ?_
        simp only [List.length_cons]
        omega
      · rw [if_neg hc]
        exact ih (t + 1) pts h

theorem sampleLoop_mem (contains : ℚ × ℚ → Bool) (u : ℕ → ℚ) (n : ℕ)
    (P : ℚ × ℚ → Bool)
    (hdraw : ∀ t, contains (drawAt u t) = true → P (drawAt u t) = true) :
    ∀ (b t : ℕ) (pts : List (ℚ × ℚ)), (∀ p ∈ pts, P p = true) →
      ∀ p ∈ (sampleLoop contains u n b t pts).1, P p = true := by
  intro b
  induction b with
  | zero => intro t pts h; simpa [sampleLoop] using h
  | succ b ih =>
    intro t pts h
    simp only [sampleLoop]
    by_cases hn : n ≤ pts.length
    · rw [if_pos hn]; simpa using h
    · rw [if_neg hn]
      by_cases hc : contains (drawAt u t) = true
      · rw [if_pos hc]
        refine ih (t + 1) (drawAt u t :: pts) ?_
        intro p hp
        rcases List.mem_cons.mp hp with h1 | h2
        · subst h1; exact hdraw t hc
        · exact h p h2
      · rw [if_neg hc]
        exact ih (t + 1) pts h

theorem sampleLoop_tries_le (contains : ℚ × ℚ → Bool) (u : ℕ → ℚ) (n : ℕ) :
    ∀ (b t : ℕ) (pts : List (ℚ × ℚ)), (sampleLoop contains u n b t pts).2 ≤ t + b := by
  intro b
  induction b with
  | zero => intro t pts; simp [sampleLoop]
  | succ b ih =>
    intro t pts
    simp only [sampleLoop]
    by_cases hn : n ≤ pts.length
    · rw [if_pos hn]; omega
    · rw [if_neg hn]
      by_cases hc : contains (drawAt u t) = true
      · rw [if_pos hc]
        have := ih (t + 1) (drawAt u t :: pts)
        omega
      · rw [if_neg hc]
        have := ih (t + 1) pts
        omega

theorem lcgState_lt (seed : ℕ) : ∀ k, lcgState seed k < 2 ^ 31
  | 0 => Nat.mod_lt _ (by norm_num)
  | _ + 1 => Nat.mod_lt _ (by norm_num)

theorem unitDraw_nonneg (seed k : ℕ) : 0 ≤ unitDraw seed k := by
  unfold unitDraw
  positivity

theorem unitDraw_le_one (seed k : ℕ) : unitDraw seed k ≤ 1 := by
  unfold unitDraw
  rw [div_le_one (by norm_num)]
  exact_mod_cast (lcgState_lt seed k).le

theorem pyUniform_mem (a b u : ℚ) (hab : a ≤ b) (h0 : 0 ≤ u) (h1 : u ≤ 1) :
    a ≤ pyUniform a b u ∧ pyUniform a b u ≤ b := by
  unfold pyUniform
  constructor
  · nlinarith
  · nlinarith

theorem drawAt_inSampleBox (seed t : ℕ) :
    inSampleBox (drawAt (unitDraw seed) t) = true := by
  obtain ⟨a1, a2⟩ := pyUniform_mem (-180) 180 (unitDraw seed (2 * t)) (by norm_num)
    (unitDraw_nonneg seed (2 * t)) (unitDraw_le_one seed (2 * t))
  obtain ⟨b1, b2⟩ := pyUniform_mem (-60) 85 (unitDraw seed (2 * t + 1)) (by norm_num)
    (unitDraw_nonneg seed (2 * t + 1)) (unitDraw_le_one seed (2 * t + 1))
  simp only [inSampleBox, drawAt, Bool.and_eq_true, decide_eq_true_eq]
  tauto

/-! ## Claim theorems for the land sampler -/

/-- C1: for every land region (`contains`) and target count `n`, the sampler
performs at most `60 * n` containment attempts; it is a total function (the
embedding of a loop that cannot raise), and the under-shoot warning of line
121 is emitted exactly when fewer than `n` points were accepted, the partial
point set still being returned. -/
theorem sample_points_budget_and_warning (contains : ℚ × ℚ → Bool) (n seed : ℕ) :
    (_sample_points_in_land contains n seed).tries ≤ 60 * n ∧
    ((_sample_points_in_land contains n seed).warned = true ↔
      (_sample_points_in_land contains n seed).pts.length < n) := by
  constructor
  · have h := sampleLoop_tries_le contains (unitDraw seed) n (n * 60) 0 []
    have h2 : (_sample_points_in_land contains n seed).tries =
        (sampleLoop contains (unitDraw seed) n (n * 60) 0 []).2 := rfl
    omega
  · simp [_sample_points_in_land]

/-- C2: the sampler is deterministic in its seed.  In this embedding the
whole state of `rng = random.Random(seed)` is the pure stream
`unitDraw seed`, so the output of `_sample_points_in_land` is a function of
the land region, the target count and the seed alone — two runs with equal
seeds and equal regions return equal point lists, in the same order. -/
theorem sample_points_deterministic_in_seed (contains : ℚ × ℚ → Bool)
    (n seed₁ seed₂ : ℕ) (h : seed₁ = seed₂) :
    _sample_points_in_land contains n seed₁ = _sample_points_in_land contains n seed₂ := by
  rw [h]

theorem sample_points_deterministic_in_seed_witness :
    _sample_points_in_land (fun _ => true) 1 7 = _sample_points_in_land (fun _ => true) 1 7 :=
  sample_points_deterministic_in_seed (fun _ => true) 1 7 7 rfl

/-- C3: the sampler returns at most `n` points, and every returned point
passed the containment test of the given land region. -/
theorem sample_points_at_most_n_and_on_land (contains : ℚ × ℚ → Bool) (n seed : ℕ) :
    (_sample_points_in_land contains n seed).pts.length ≤ n ∧
    (_sample_points_in_land contains n seed).pts.all contains = true := by
  constructor
  · exact sampleLoop_length_le contains (unitDraw seed) n (n * 60) 0 [] (by simp)
  · rw [List.all_eq_true]
    intro p hp
    exact sampleLoop_mem contains (unitDraw seed) n contains (fun _ h => h)
      (n * 60) 0 [] (by simp) p hp

/-- C9: every returned point lies in the fixed sampling rectangle
`[-180, 180] × [-60, 85]`; in particular no sampled point has latitude below
-60, whatever the land region. -/
theorem sample_points_in_sampling_rectangle (contains : ℚ × ℚ → Bool) (n seed : ℕ) :
    (_sample_points_in_land contains n seed).pts.all inSampleBox = true := by
  rw [List.all_eq_true]
  intro p hp
  exact sampleLoop_mem contains (unitDraw seed) n inSampleBox
    (fun t _ => drawAt_inSampleBox seed t) (n * 60) 0 [] (by simp) p hp

/-! ## Claim theorems for the geodesic circle generator -/

/-- C5: for every radius `r > 0` and sample count `n ≥ 3`, `_geodesic_circle`
produces a circle of exactly `n` ordered points. -/
theorem geodesic_circle_returns_n_points (forward : ℚ × ℚ → ℚ → ℚ → ℚ × ℚ)
    (lon lat r : ℚ) (n : ℕ) (hr : 0 < r) (hn : 3 ≤ n) :
    circlePointCount (_geodesic_circle forward lon lat r n) = some n := by
  simp [circlePointCount, _geodesic_circle, geodesicCircleCoords]

theorem geodesic_circle_returns_n_points_witness :
    circlePointCount (_geodesic_circle (fun p _ _ => p) 0 0 1 3) = some 3 :=
  geodesic_circle_returns_n_points (fun p _ _ => p) 0 0 1 3 (by norm_num) (by norm_num)

/-- C4 counterexample: a negative radius is NOT rejected.  Neither
`_geodesic_circle` (src/santa_map.py lines 50-54) nor the cartopy/
geographiclib path it delegates to validates the radius: at `radius_km = -1`
the call still produces a full circle of `n_samples` points instead of being
rejected. -/
theorem geodesic_circle_negative_radius_not_rejected :
    circlePointCount (_geodesic_circle (fun p _ _ => p) 0 0 (-1) 3) = some 3 := by
  simp [circlePointCount, _geodesic_circle, geodesicCircleCoords]

/-- C4 amended: `_geodesic_circle` performs no radius validation and never
raises: for every center, every radius (negative radii included) and every
sample count it returns a circle of exactly `n_samples` points; in particular
centers near the poles and antimeridian-wrapping radii raise nothing. -/
theorem geodesic_circle_never_raises (forward : ℚ × ℚ → ℚ → ℚ → ℚ × ℚ)
    (lon lat radius_km : ℚ) (n_samples : ℕ) :
    circlePointCount (_geodesic_circle forward lon lat radius_km n_samples) = some n_samples := by
  simp [circlePointCount, _geodesic_circle, geodesicCircleCoords]

/-! ## Claim theorem for the GIF failure path -/

/-- C6: when `anim.save` raises any exception `e`, `main` catches it broadly:
the process still exits with code 0, the program is not aborted, the static
PNG saved beforehand stays saved, and exactly one non-fatal warning is
emitted whose rendered message interpolates the underlying error's type name
and message. -/
theorem gif_save_failure_nonfatal (e : PyError) :
    (gifSaveStep (Except.error e)).exitCode = 0 ∧
    (gifSaveStep (Except.error e)).aborted = false ∧
    (gifSaveStep (Except.error e)).staticSaved = true ∧
    (gifSaveStep (Except.error e)).warnings = [gifFailureWarning e] ∧
    renderWarning (gifFailureWarning e) =
      "Failed to save GIF. Make sure Pillow is installed (pip install pillow). Error: "
        ++ e.typeName ++ ": " ++ e.message :=
  ⟨rfl, rfl, rfl, rfl, rfl⟩

/-! ## Claim theorems for the snow animation -/

theorem npClip_mem (x lo hi : ℚ) (h : lo ≤ hi) :
    lo ≤ npClip x lo hi ∧ npClip x lo hi ≤ hi := by
  unfold npClip
  exact ⟨le_min (le_max_right x lo) h, min_le_right _ _⟩

theorem updateParticle_inRange (s nz f : ℚ) (p : Particle) :
    particleInRange (updateParticle s nz f p) = true := by
  obtain ⟨h1, h2⟩ := npClip_mem (f + nz) (-0.02 : ℚ) 1.02 (by norm_num)
  obtain ⟨h3, h4⟩ := npClip_mem (p.x + nz) (-0.02 : ℚ) 1.02 (by norm_num)
  by_cases h : p.y - s < -0.05
  · simp only [updateParticle, particleInRange, if_pos h, Bool.and_eq_true, decide_eq_true_eq]
    refine ⟨⟨h1, h2⟩, by norm_num⟩
  · simp only [updateParticle, particleInRange, if_neg h, Bool.and_eq_true, decide_eq_true_eq]
    exact ⟨⟨h3, h4⟩, not_lt.mp h⟩

theorem update_all_inRange (speed noise freshX : ℕ → ℚ) (ps : List Particle) :
    (_update speed noise freshX ps).all particleInRange = true := by
  rw [List.all_eq_true]
  intro q hq
  simp only [_update, List.mem_map] at hq
  obtain ⟨ip, _, rfl⟩ := hq
  exact updateParticle_inRange _ _ _ _

/-- C10: after every call of `_update`, every particle's x lies in
[-0.02, 1.02] and every particle's y is at least -0.05; per particle, a
particle that fell below -0.05 has y reset to 1.05 and x rebuilt from the
freshly drawn value (jittered and clipped), the others keep their fallen y
and their jittered, clipped x. -/
theorem update_preserves_particle_invariant (speed noise freshX : ℕ → ℚ)
    (ps : List Particle) (s nz f : ℚ) (p : Particle) :
    (_update speed noise freshX ps).all particleInRange = true ∧
    (updateParticle s nz f p).y = (if p.y - s < -0.05 then (1.05 : ℚ) else p.y - s) ∧
    (updateParticle s nz f p).x =
      (if p.y - s < -0.05 then npClip (f + nz) (-0.02) 1.02
       else npClip (p.x + nz) (-0.02) 1.02) := by
  refine ⟨update_all_inRange speed noise freshX ps, ?_, ?_⟩
  · by_cases h : p.y - s < -0.05 <;> simp [updateParticle, h]
  · by_cases h : p.y - s < -0.05 <;> simp [updateParticle, h]

/-- C7: the animated output of `main` is a finite sequence of exactly the
configured frame count: `SNOW_FRAMES = 120` frames, one figure state per
`_update` call. -/
theorem animation_has_snow_frames_frames (speed : ℕ → ℚ) (noise freshX : ℕ → ℕ → ℚ)
    (init : List Particle) :
    (animationFrames speed noise freshX init).length = SNOW_FRAMES ∧ SNOW_FRAMES = 120 :=
  ⟨by simp [animationFrames], rfl⟩

/-! ## Claim theorem for the bundled location tables -/

/-- C8: the two bundled program variants hard-code location tables of 7 and
15 entries respectively, and the static figure the pipeline hands to the
renderer is non-empty for both (the 15-entry variant is modelled from the
spec, its source not being bundled here). -/
theorem variants_tables_and_static_figures (contains : ℚ × ℚ → Bool) :
    rows.length = 7 ∧ rows15.length = 15 ∧
    (mainStatic contains).length ≠ 0 ∧ (mainStatic15 contains).length ≠ 0 := by
  refine ⟨rfl, by simp [rows15], ?_, ?_⟩
  · simp [mainStatic, staticFigure]
  · simp [mainStatic15, staticFigure]
